import Mathlib

/-!
Verification of the AnalyseSentimentCI feedback/alerting service.

The embedding below follows the Python sources:
  * `app/predict.py`   — `SentimentPredictor` (prediction cache, consecutive
    failure counter, rejection history, alert e-mail).
  * `app.py`           — the Flask `/decision` endpoint.
  * `app/azure_monitor.py` — `AzureMonitor` (bounded deque of rejection
    timestamps and the trailing five-minute alert threshold).

External effects (SMTP delivery, clock readings, UUID generation, the trained
model) are passed in as explicit parameters, so every function is total and
deterministic.
-/

namespace SentimentCI

/-- Truthiness of an optional string, the way Python evaluates the results of
`os.getenv` in `all([self.email_from, self.email_to, self.email_password])`:
`None` and the empty string are falsy. -/
def truthy : Option String → Bool
  | none => false
  | some s => s ≠ ""

/-- One element of `SentimentPredictor.rejection_history`
(`predict.py` lines 111–115): the dict appended on every rejection. -/
structure RejectionRecord where
  prediction_id : String
  timestamp : String
  text_preview : String
deriving DecidableEq, Repr

/-- One value of the `recent_predictions` dict
(`predict.py` lines 74–79): text (possibly truncated), the model label and
probabilities, the `time.time()` timestamp, and the user decision recorded
later by `handle_decision` (line 107). -/
structure PredEntry where
  text : String
  prediction : Int
  probabilities : ℚ × ℚ
  timestamp : ℚ
  user_decision : Option String
deriving DecidableEq, Repr

/-- The mutable state of `SentimentPredictor` (`predict.py` `__init__`,
lines 44–60): e-mail configuration, the consecutive failure counter, the
rejection history list, and the `recent_predictions` dict (modelled as an
insertion-ordered association list, like a Python dict). -/
structure PredictorState where
  email_from : Option String
  email_to : Option String
  email_password : Option String
  consecutive_failures : ℕ
  rejection_history : List RejectionRecord
  recent_predictions : List (String × PredEntry)
deriving DecidableEq, Repr

/-- Python dict lookup `d[k]` / `k in d` on the association-list model. -/
def dictLookup {α : Type} (l : List (String × α)) (k : String) : Option α :=
  match l.find? (fun p => p.1 == k) with
  | some p => some p.2
  | none => none

/-- Python dict assignment `d[k] = v`: replaces the value in place when the
key exists (keeping its position), otherwise appends at the end, matching
the insertion-order semantics of Python dicts. -/
def dictInsert {α : Type} : List (String × α) → String → α → List (String × α)
  | [], k, v => [(k, v)]
  | p :: l, k, v =>
    if p.1 == k then (k, v) :: l else p :: dictInsert l k v

/-- What the SMTP transport does when `send_alert_email` talks to it:
delivery succeeds, or one of the three exception classes of
`predict.py` lines 188–195 is raised inside the `try` block. -/
inductive SmtpOutcome
  | success
  | authError
  | smtpError
  | otherError
deriving DecidableEq, Repr

/-- `SentimentPredictor.send_alert_email` (`predict.py` lines 135–195).
If the e-mail configuration is incomplete the function returns early
(lines 140–144).  Otherwise the SMTP interaction either succeeds — in which
case `rejection_history` is cleared (line 186) — or raises; every exception
is caught by one of the three `except` clauses, so the function always
returns normally and on failure leaves the state untouched. -/
def send_alert_email (s : PredictorState) (outcome : SmtpOutcome) :
    PredictorState :=
  if truthy s.email_from && truthy s.email_to && truthy s.email_password then
    match outcome with
    | .success => { s with rejection_history := [] }
    | _ => s
  else s

/-- The dict returned by `handle_decision`: either the not-found error dict
(line 104, with `status = "error"` and no counter field) or the success dict
of lines 129–133 (with `status = "success"` and the counter value). -/
structure DecisionResult where
  status : String
  message : String
  consecutive_failures : Option ℕ
deriving DecidableEq, Repr

/-- `prediction_data["text"][:50] + "..."` (`predict.py` line 114). -/
def textPreview (t : String) : String := t.take 50 ++ "..."

/-- Result of one `handle_decision` call: the new predictor state, the
returned dict, and how many times `send_alert_email` was invoked. -/
structure DecisionOutput where
  state : PredictorState
  result : DecisionResult
  alerts : ℕ
deriving DecidableEq, Repr

/-- `SentimentPredictor.handle_decision` (`predict.py` lines 96–133).
`now` is the ISO timestamp `datetime.now().isoformat()` of line 113 and
`outcome` is what the SMTP transport would do if an alert is sent. -/
def handle_decision (s : PredictorState) (pid decision : String)
    (now : String) (outcome : SmtpOutcome) : DecisionOutput :=
  match dictLookup s.recent_predictions pid with
  | none => ⟨s, ⟨"error", "Prediction ID not found", none⟩, 0⟩
  | some entry =>
    let entryD := { entry with user_decision := some decision }
    let cache := dictInsert s.recent_predictions pid entryD
    let s1 := { s with recent_predictions := cache }
    let msg := "Decision " ++ decision ++ " recorded"
    if decision == "reject" then
      let cf := s1.consecutive_failures + 1
      let hist := s1.rejection_history ++ [⟨pid, now, textPreview entry.text⟩]
      let s2 := { s1 with consecutive_failures := cf, rejection_history := hist }
      if 3 ≤ cf then
        let s3 := send_alert_email s2 outcome
        ⟨{ s3 with consecutive_failures := 0 }, ⟨"success", msg, some 0⟩, 1⟩
      else
        ⟨s2, ⟨"success", msg, some cf⟩, 0⟩
    else
      ⟨{ s1 with consecutive_failures := 0 }, ⟨"success", msg, some 0⟩, 0⟩

/-- The trained classifier, an external collaborator:
`predict_proba` returns the two class probabilities and `label` is the
`model.predict` class label (`predict.py` lines 67–68). -/
structure Model where
  predict_proba : String → ℚ × ℚ
  label : String → Int

/-- The dict returned by `predict` (`predict.py` lines 88–92). -/
structure PredictResult where
  negative : ℚ
  positive : ℚ
  prediction_id : String
deriving DecidableEq, Repr

/-- `text[:100] + "..." if len(text) > 100 else text` (`predict.py` line 75). -/
def truncStore (text : String) : String :=
  if 100 < text.length then text.take 100 ++ "..." else text

/-- `SentimentPredictor.predict` (`predict.py` lines 65–94).
`newId` is the freshly generated `uuid.uuid4()` string, `t1` the
`time.time()` reading stored with the entry (line 78) and `t2` the second
`time.time()` reading used for cleanup (line 82); the cleanup keeps the
entries strictly younger than one hour (line 85). -/
def predict (s : PredictorState) (m : Model) (text : String)
    (newId : String) (t1 t2 : ℚ) : PredictorState × PredictResult :=
  let probs := m.predict_proba text
  let cache1 := dictInsert s.recent_predictions newId
    ⟨truncStore text, m.label text, probs, t1, none⟩
  let cache2 := cache1.filter (fun p => decide (t2 - p.2.timestamp < 3600))
  ({ s with recent_predictions := cache2 },
   ⟨probs.1, probs.2, newId⟩)

/-- The JSON body of a `/decision` request (`app.py` lines 98–112):
`none` at the outer level models a request whose `request.get_json()` is
falsy; each field is `none` when absent. -/
structure DecisionRequest where
  prediction_id : Option String
  decision : Option String
deriving DecidableEq, Repr

/-- The JSON body the `/decision` endpoint answers with: an error dict for
the 400 branches, or the (jsonified) `handle_decision` result dict. -/
inductive HttpBody
  | err (message : String)
  | result (r : DecisionResult)
deriving DecidableEq, Repr

/-- Result of one `/decision` request: the new predictor state, the HTTP
status code, the response body, and how many alerts were sent. -/
structure HttpOutput where
  state : PredictorState
  code : ℕ
  body : HttpBody
  alerts : ℕ
deriving DecidableEq, Repr

/-- The Flask `/decision` endpoint (`app.py` lines 92–138).  Validation of
the body and of the `decision` value happens before `handle_decision` is
called; a valid request is answered `200` with the `handle_decision`
result (plus metadata, not modelled). -/
def decision_endpoint (s : PredictorState) (body : Option DecisionRequest)
    (now : String) (outcome : SmtpOutcome) : HttpOutput :=
  match body with
  | none => ⟨s, 400, .err "Aucune donnee JSON fournie", 0⟩
  | some req =>
    match req.prediction_id with
    | none => ⟨s, 400, .err "Champ prediction_id manquant", 0⟩
    | some pid =>
      match req.decision with
      | none => ⟨s, 400, .err "Champ decision manquant", 0⟩
      | some dec =>
        if !(dec == "accept" || dec == "reject") then
          ⟨s, 400, .err "Valeur de decision invalide", 0⟩
        else
          let out := handle_decision s pid dec now outcome
          ⟨out.state, 200, .result out.result, out.alerts⟩

/-- The state of `AzureMonitor` relevant to its alerting policy
(`azure_monitor.py`): the `enabled` flag and the `rejection_history`
deque of rejection timestamps (seconds, as rationals). -/
structure AzureState where
  enabled : Bool
  rejection_history : List ℚ
deriving DecidableEq, Repr

/-- `collections.deque(maxlen=cap).append`: appends on the right and, when
the deque is full, evicts the oldest (leftmost) element
(`azure_monitor.py` lines 112 and 195). -/
def dequeAppend (cap : ℕ) (l : List ℚ) (x : ℚ) : List ℚ :=
  if cap < (l ++ [x]).length then (l ++ [x]).drop ((l ++ [x]).length - cap)
  else l ++ [x]

/-- `AzureMonitor._check_rejection_threshold` (`azure_monitor.py`
lines 258–274): fires `_trigger_alert` iff the monitor is enabled, the
history holds at least 3 timestamps, and at least 3 of them fall strictly
inside the trailing five-minute window.  Returns whether the alert fired;
the history itself is not modified. -/
def check_rejection_threshold (s : AzureState) (now : ℚ) : Bool :=
  if !s.enabled || s.rejection_history.length < 3 then false
  else decide (3 ≤
    (s.rejection_history.filter (fun t => decide (now - 300 < t))).length)

/-- `AzureMonitor.log_rejection` restricted to its stateful core
(`azure_monitor.py` lines 174–231): when enabled, append the current time
to the rejection deque and run the threshold check.  Returns the new state
and whether an alert fired. -/
def log_rejection (s : AzureState) (now : ℚ) : AzureState × Bool :=
  if !s.enabled then (s, false)
  else
    let h2 := dequeAppend 100 s.rejection_history now
    let s2 := { s with rejection_history := h2 }
    (s2, check_rejection_threshold s2 now)

/-! ### Concrete sample data and iteration helpers -/

/-- A concrete cached prediction entry. -/
def sampleEntry : PredEntry := ⟨"hello", 1, (1/2, 1/2), 0, none⟩

/-- A concrete predictor state with full e-mail configuration, a zero
counter, an empty rejection history, and one cached prediction `"p1"`. -/
def sampleState : PredictorState :=
  ⟨some "from@x", some "to@x", some "pw", 0, [], [("p1", sampleEntry)]⟩

/-- `sampleState` two rejections into a breach episode. -/
def sampleState2 : PredictorState :=
  { sampleState with consecutive_failures := 2 }

/-- A predictor state whose e-mail configuration is absent (all three
`os.getenv` reads returned `None`), so `send_alert_email` always takes the
early-return branch of `predict.py` lines 140–144. -/
def noEmailState : PredictorState :=
  ⟨none, none, none, 0, [], [("p1", sampleEntry)]⟩

/-- `n` successive `reject` decisions on the same cached prediction id. -/
def iterRejects (s : PredictorState) (pid : String) : ℕ → PredictorState
  | 0 => s
  | n + 1 => (handle_decision (iterRejects s pid n) pid "reject" "t" .success).state

/-- The chain of `DecisionOutput`s produced by rejecting `"p1"` over and
over starting from `sampleState`. -/
def sampleReject : ℕ → DecisionOutput
  | 0 => handle_decision sampleState "p1" "reject" "t" .success
  | n + 1 => handle_decision (sampleReject n).state "p1" "reject" "t" .success

/-- Run `AzureMonitor.log_rejection` on a whole list of rejection
timestamps from a given starting state. -/
def runFrom (start : AzureState) (ts : List ℚ) : AzureState :=
  ts.foldl (fun s t => (log_rejection s t).1) start

/-- Run `AzureMonitor.log_rejection` on a whole list of rejection
timestamps, starting from an enabled monitor with an empty history. -/
def runRejections (ts : List ℚ) : AzureState :=
  runFrom ⟨true, []⟩ ts

/-- A constant external model: `predict_proba` always answers the uniform
distribution. -/
def constModel : Model := ⟨fun _ => (1/2, 1/2), fun _ => 0⟩

/-! ### Helper lemmas -/

theorem dictLookup_cons {α : Type} (p : String × α) (l : List (String × α))
    (k : String) :
    dictLookup (p :: l) k = if p.1 == k then some p.2 else dictLookup l k := by
  cases h : p.1 == k <;> simp [dictLookup, List.find?, h]

theorem dictLookup_dictInsert_self {α : Type} (l : List (String × α))
    (k : String) (v : α) : dictLookup (dictInsert l k v) k = some v := by
  induction l with
  | nil => simp [dictInsert, dictLookup_cons, dictLookup]
  | cons p l ih =>
    by_cases h : p.1 == k
    · simp [dictInsert, h, dictLookup_cons]
    · simp [dictInsert, h, dictLookup_cons, ih]

theorem send_alert_email_recent (s : PredictorState) (o : SmtpOutcome) :
    (send_alert_email s o).recent_predictions = s.recent_predictions := by
  cases o <;> unfold send_alert_email <;> split <;> rfl

theorem send_alert_email_cf (s : PredictorState) (o : SmtpOutcome) :
    (send_alert_email s o).consecutive_failures = s.consecutive_failures := by
  cases o <;> unfold send_alert_email <;> split <;> rfl

/-- The number of `send_alert_email` invocations a `handle_decision` call
makes, as a function of the pre-state. -/
theorem handle_decision_alerts (s : PredictorState) (pid d now : String)
    (o : SmtpOutcome) :
    (handle_decision s pid d now o).alerts =
      if (dictLookup s.recent_predictions pid).isSome ∧ d = "reject" ∧
          3 ≤ s.consecutive_failures + 1 then 1 else 0 := by
  unfold handle_decision
  cases hl : dictLookup s.recent_predictions pid with
  | none => simp
  | some entry =>
    by_cases hd : d = "reject"
    · subst hd
      by_cases hcf : 3 ≤ s.consecutive_failures + 1 <;> simp [hcf]
    · have hb : (d == "reject") = false := by simp [hd]
      simp [hb, hd]

/-- The consecutive-failure counter after one `handle_decision` call, as a
function of the pre-state. -/
theorem handle_decision_cf (s : PredictorState) (pid d now : String)
    (o : SmtpOutcome) :
    (handle_decision s pid d now o).state.consecutive_failures =
      if (dictLookup s.recent_predictions pid).isSome then
        (if d = "reject" then
          (if 3 ≤ s.consecutive_failures + 1 then 0
           else s.consecutive_failures + 1)
         else 0)
      else s.consecutive_failures := by
  unfold handle_decision
  cases hl : dictLookup s.recent_predictions pid with
  | none => simp
  | some entry =>
    by_cases hd : d = "reject"
    · subst hd
      by_cases hcf : 3 ≤ s.consecutive_failures + 1 <;>
        simp [hcf, send_alert_email_cf]
    · have hb : (d == "reject") = false := by simp [hd]
      simp [hb, hd]

/-- A `handle_decision` call on a cached prediction id rewrites the cache by
recording the user decision on that entry (the alert path does not touch the
cache). -/
theorem handle_decision_recent (s : PredictorState) (pid d now : String)
    (o : SmtpOutcome) (entry : PredEntry)
    (hl : dictLookup s.recent_predictions pid = some entry) :
    (handle_decision s pid d now o).state.recent_predictions =
      dictInsert s.recent_predictions pid
        { entry with user_decision := some d } := by
  unfold handle_decision
  rw [hl]
  by_cases hd : d == "reject"
  · by_cases hcf : 3 ≤ s.consecutive_failures + 1 <;>
      simp [hd, hcf, send_alert_email_recent]
  · simp [hd]

/-- A prediction id found in the cache is still found after any
`handle_decision` call. -/
theorem handle_decision_lookup_isSome (s : PredictorState) (pid d now : String)
    (o : SmtpOutcome) (h : (dictLookup s.recent_predictions pid).isSome) :
    (dictLookup
      (handle_decision s pid d now o).state.recent_predictions pid).isSome := by
  rw [Option.isSome_iff_exists] at h
  obtain ⟨entry, hl⟩ := h
  rw [handle_decision_recent s pid d now o entry hl,
    dictLookup_dictInsert_self]
  rfl

/-! ### Claims -/

/-- C1: starting from a counter at 0 (the state at the beginning of a breach
episode), three consecutive `reject` decisions on a cached prediction id,
with no intervening `accept`, invoke `send_alert_email` exactly once — on
the third call — and reset `consecutive_failures` to 0; a fourth and fifth
consecutive `reject` send no further alert, and the alert fires again only
once three further rejections have accumulated (the sixth call). -/
theorem c1_three_rejects_alert_once (s : PredictorState) (pid : String)
    (n1 n2 n3 n4 n5 n6 : String) (o1 o2 o3 o4 o5 o6 : SmtpOutcome)
    (r1 r2 r3 r4 r5 r6 : DecisionOutput)
    (e1 : r1 = handle_decision s pid "reject" n1 o1)
    (e2 : r2 = handle_decision r1.state pid "reject" n2 o2)
    (e3 : r3 = handle_decision r2.state pid "reject" n3 o3)
    (e4 : r4 = handle_decision r3.state pid "reject" n4 o4)
    (e5 : r5 = handle_decision r4.state pid "reject" n5 o5)
    (e6 : r6 = handle_decision r5.state pid "reject" n6 o6)
    (hf : (dictLookup s.recent_predictions pid).isSome)
    (h0 : s.consecutive_failures = 0) :
    r1.alerts = 0 ∧ r2.alerts = 0 ∧ r3.alerts = 1 ∧
    r3.state.consecutive_failures = 0 ∧
    r4.alerts = 0 ∧ r5.alerts = 0 ∧ r6.alerts = 1 := by
  have hf1 : (dictLookup r1.state.recent_predictions pid).isSome := by
    rw [e1]; exact handle_decision_lookup_isSome _ _ _ _ _ hf
  have hf2 : (dictLookup r2.state.recent_predictions pid).isSome := by
    rw [e2]; exact handle_decision_lookup_isSome _ _ _ _ _ hf1
  have hf3 : (dictLookup r3.state.recent_predictions pid).isSome := by
    rw [e3]; exact handle_decision_lookup_isSome _ _ _ _ _ hf2
  have hf4 : (dictLookup r4.state.recent_predictions pid).isSome := by
    rw [e4]; exact handle_decision_lookup_isSome _ _ _ _ _ hf3
  have hf5 : (dictLookup r5.state.recent_predictions pid).isSome := by
    rw [e5]; exact handle_decision_lookup_isSome _ _ _ _ _ hf4
  have c1 : r1.state.consecutive_failures = 1 := by
    rw [e1, handle_decision_cf]; simp [hf, h0]
  have c2 : r2.state.consecutive_failures = 2 := by
    rw [e2, handle_decision_cf]; simp [hf1, c1]
  have c3 : r3.state.consecutive_failures = 0 := by
    rw [e3, handle_decision_cf]; simp [hf2, c2]
  have c4 : r4.state.consecutive_failures = 1 := by
    rw [e4, handle_decision_cf]; simp [hf3, c3]
  have c5 : r5.state.consecutive_failures = 2 := by
    rw [e5, handle_decision_cf]; simp [hf4, c4]
  refine ⟨?_, ?_, ?_, c3, ?_, ?_, ?_⟩
  · rw [e1, handle_decision_alerts]; simp [h0]
  · rw [e2, handle_decision_alerts]; simp [c1]
  · rw [e3, handle_decision_alerts]; simp [hf2, c2]
  · rw [e4, handle_decision_alerts]; simp [c3]
  · rw [e5, handle_decision_alerts]; simp [c4]
  · rw [e6, handle_decision_alerts]; simp [hf5, c5]

/-- Witness for C1: the episode played out from the concrete `sampleState`. -/
theorem c1_witness :
    (sampleReject 0).alerts = 0 ∧ (sampleReject 1).alerts = 0 ∧
    (sampleReject 2).alerts = 1 ∧
    (sampleReject 2).state.consecutive_failures = 0 ∧
    (sampleReject 3).alerts = 0 ∧ (sampleReject 4).alerts = 0 ∧
    (sampleReject 5).alerts = 1 :=
  c1_three_rejects_alert_once sampleState "p1" "t" "t" "t" "t" "t" "t"
    .success .success .success .success .success .success
    (sampleReject 0) (sampleReject 1) (sampleReject 2) (sampleReject 3)
    (sampleReject 4) (sampleReject 5)
    rfl rfl rfl rfl rfl rfl (by decide) rfl

/-- C2 (amended): for the consecutive-counter policy of
`SentimentPredictor.handle_decision`, the counter is reset to 0 immediately
after an alert fires, so the very next `reject` decision cannot fire a
second alert.  (The five-minute-window policy of
`AzureMonitor._check_rejection_threshold` does not have this property: it
never resets its history after firing — see the counterexample.) -/
theorem c2_consecutive_policy_no_double_alert (s : PredictorState)
    (pid pid2 n1 n2 : String) (o1 o2 : SmtpOutcome)
    (h : 1 ≤ (handle_decision s pid "reject" n1 o1).alerts) :
    (handle_decision (handle_decision s pid "reject" n1 o1).state
      pid2 "reject" n2 o2).alerts = 0 := by
  have hcf0 :
      (handle_decision s pid "reject" n1 o1).state.consecutive_failures = 0 := by
    rw [handle_decision_alerts] at h
    have hcond : (dictLookup s.recent_predictions pid).isSome ∧
        ("reject" : String) = "reject" ∧ 3 ≤ s.consecutive_failures + 1 := by
      by_contra hc
      rw [if_neg hc] at h
      omega
    rw [handle_decision_cf]
    simp [hcond.1, hcond.2.2]
  rw [handle_decision_alerts, hcf0]
  simp

/-- Counterexample for C2: the five-minute-window policy of
`AzureMonitor` keeps its full timestamp history after firing, so a third
rejection inside the window fires an alert and the very next rejection
fires again. -/
theorem c2_counterexample :
    (log_rejection ⟨true, [0, 1]⟩ 2).2 = true ∧
    (log_rejection ⟨true, [0, 1]⟩ 2).1.rejection_history = [0, 1, 2] ∧
    (log_rejection (log_rejection ⟨true, [0, 1]⟩ 2).1 3).2 = true := by
  unfold log_rejection check_rejection_threshold dequeAppend
  norm_num

/-- Witness for C2 (amended): the double-reject scenario instantiated at a
concrete state already holding two consecutive failures. -/
theorem c2_witness :
    (handle_decision
      (handle_decision { sampleState with consecutive_failures := 2 }
        "p1" "reject" "t" .success).state
      "p1" "reject" "t" .success).alerts = 0 :=
  c2_consecutive_policy_no_double_alert
    { sampleState with consecutive_failures := 2 }
    "p1" "p1" "t" "t" .success .success (by decide)

/-- `log_rejection` never changes the `enabled` flag. -/
theorem log_rejection_enabled (s : AzureState) (t : ℚ) :
    ((log_rejection s t).1).enabled = s.enabled := by
  by_cases h : s.enabled <;> simp [log_rejection, h]

/-- One `dequeAppend` step keeps the deque within its capacity. -/
theorem dequeAppend_length_le (cap : ℕ) (l : List ℚ) (x : ℚ)
    (h : l.length ≤ cap) : (dequeAppend cap l x).length ≤ cap := by
  unfold dequeAppend
  by_cases hc : cap < (l ++ [x]).length
  · simp only [if_pos hc, List.length_drop]
    omega
  · simp only [if_neg hc]
    simp at hc ⊢
    omega

/-- When the monitor is enabled, `log_rejection` appends through
`dequeAppend`. -/
theorem log_rejection_hist (s : AzureState) (t : ℚ) (h : s.enabled = true) :
    (log_rejection s t).1.rejection_history =
      dequeAppend 100 s.rejection_history t := by
  simp [log_rejection, h]

/-- One `log_rejection` step keeps the deque within 100 entries. -/
theorem log_rejection_length_le (s : AzureState) (t : ℚ)
    (h : s.rejection_history.length ≤ 100) :
    ((log_rejection s t).1).rejection_history.length ≤ 100 := by
  by_cases he : s.enabled = true
  · rw [log_rejection_hist s t he]
    exact dequeAppend_length_le 100 s.rejection_history t h
  · simpa [log_rejection, he] using h

/-- The invariant carried by any run of `log_rejection` steps. -/
theorem runFrom_inv (start : AzureState) (ts : List ℚ)
    (h1 : start.enabled = true) (h2 : start.rejection_history.length ≤ 100) :
    (runFrom start ts).enabled = true ∧
    (runFrom start ts).rejection_history.length ≤ 100 := by
  induction ts generalizing start with
  | nil => exact ⟨h1, h2⟩
  | cons t ts ih =>
    simp only [runFrom, List.foldl_cons]
    exact ih _ (by rw [log_rejection_enabled]; exact h1)
      (log_rejection_length_le _ _ h2)

/-- Counterexample for C3: `SentimentPredictor.rejection_history` is an
unbounded Python list.  With an incomplete e-mail configuration (so the
history is never cleared by a successful alert), 101 successive rejections
of a cached prediction leave 101 entries in the history — more than the
claimed capacity of 100. -/
theorem c3_counterexample :
    (iterRejects noEmailState "p1" 101).rejection_history.length = 101 := by
  set_option maxRecDepth 8192 in decide

/-- C3 (amended): the 100-entry bound with oldest-first eviction holds for
the `AzureMonitor` rejection deque (`deque(maxlen=100)`), not for
`SentimentPredictor.rejection_history`: after any sequence of recorded
rejections the deque holds at most 100 timestamps, and a further rejection
recorded when the deque is full evicts the oldest entry. -/
theorem c3_azure_deque_bounded (ts : List ℚ) (x : ℚ) :
    (runRejections ts).rejection_history.length ≤ 100 ∧
    ((runRejections ts).rejection_history.length = 100 →
      (log_rejection (runRejections ts) x).1.rejection_history =
        (runRejections ts).rejection_history.tail ++ [x]) := by
  obtain ⟨hen, hlen⟩ := runFrom_inv ⟨true, []⟩ ts rfl (by simp)
  rw [show runFrom ⟨true, []⟩ ts = runRejections ts from rfl] at hen hlen
  refine ⟨hlen, fun hfull => ?_⟩
  rw [log_rejection_hist _ _ hen]
  unfold dequeAppend
  have hgt : 100 < ((runRejections ts).rejection_history ++ [x]).length := by
    simp [hfull]
  rw [if_pos hgt]
  have hd : ((runRejections ts).rejection_history ++ [x]).length - 100 = 1 := by
    simp [hfull]
  rw [hd, List.drop_append_of_le_length (by omega), List.drop_one]

/-- When the SMTP interaction fails, `send_alert_email` leaves the rejection
history exactly as it was (nothing is rolled back, nothing is cleared). -/
theorem send_alert_email_hist_of_failure (s : PredictorState)
    (o : SmtpOutcome) (h : o ≠ SmtpOutcome.success) :
    (send_alert_email s o).rejection_history = s.rejection_history := by
  cases o with
  | success => exact absurd rfl h
  | authError => unfold send_alert_email; split <;> rfl
  | smtpError => unfold send_alert_email; split <;> rfl
  | otherError => unfold send_alert_email; split <;> rfl

/-- A `handle_decision` call on a cached prediction id always returns the
`status = "success"` dict, whatever the decision and the SMTP outcome. -/
theorem handle_decision_status_found (s : PredictorState)
    (pid d now : String) (o : SmtpOutcome) (entry : PredEntry)
    (hl : dictLookup s.recent_predictions pid = some entry) :
    (handle_decision s pid d now o).result.status = "success" := by
  unfold handle_decision
  rw [hl]
  by_cases hd : (d == "reject")
  · by_cases hcf : 3 ≤ s.consecutive_failures + 1 <;> simp [hd, hcf]
  · simp [hd]

/-- C4: when the alert threshold is reached on a rejection of a cached
prediction id, every SMTP outcome — success, authentication error, SMTP
error, or any other exception — leaves `handle_decision` returning the
success dict with the counter reset: `consecutive_failures` is 0 afterwards,
exactly one alert attempt is made, and on delivery failure the freshly
appended rejection record is kept (no rollback). -/
theorem c4_alert_failure_contained (s : PredictorState) (pid now : String)
    (o : SmtpOutcome) (entry : PredEntry)
    (hl : dictLookup s.recent_predictions pid = some entry)
    (hcf : 3 ≤ s.consecutive_failures + 1) :
    (handle_decision s pid "reject" now o).state.consecutive_failures = 0 ∧
    (handle_decision s pid "reject" now o).result.status = "success" ∧
    (handle_decision s pid "reject" now o).result.consecutive_failures =
      some 0 ∧
    (handle_decision s pid "reject" now o).alerts = 1 ∧
    (o ≠ SmtpOutcome.success →
      (handle_decision s pid "reject" now o).state.rejection_history =
        s.rejection_history ++ [⟨pid, now, textPreview entry.text⟩]) := by
  refine ⟨?_, ?_, ?_, ?_, ?_⟩
  · rw [handle_decision_cf]; simp [hl, hcf]
  · exact handle_decision_status_found s pid "reject" now o entry hl
  · unfold handle_decision; rw [hl]; simp [hcf]
  · rw [handle_decision_alerts]; simp [hl, hcf]
  · intro ho
    unfold handle_decision
    rw [hl]
    simp [hcf, send_alert_email_hist_of_failure _ _ ho]

/-- Witness for C4: the threshold scenario at a concrete state with two
prior consecutive failures and a failing SMTP server. -/
theorem c4_witness :
    (handle_decision sampleState2
      "p1" "reject" "t" .smtpError).state.consecutive_failures = 0 ∧
    (handle_decision sampleState2
      "p1" "reject" "t" .smtpError).result.status = "success" ∧
    (handle_decision sampleState2
      "p1" "reject" "t" .smtpError).result.consecutive_failures = some 0 ∧
    (handle_decision sampleState2 "p1" "reject" "t" .smtpError).alerts = 1 ∧
    (SmtpOutcome.smtpError ≠ SmtpOutcome.success →
      (handle_decision sampleState2
        "p1" "reject" "t" .smtpError).state.rejection_history =
        sampleState2.rejection_history ++
          [⟨"p1", "t", textPreview sampleEntry.text⟩]) :=
  c4_alert_failure_contained sampleState2
    "p1" "t" .smtpError sampleEntry rfl (by decide)

/-- C6: a decision on a prediction id that is not in the cache returns the
explicit not-found dict, sends no alert, and leaves the whole predictor
state (counter, history and cache included) unchanged. -/
theorem c6_unknown_id_no_op (s : PredictorState) (pid d now : String)
    (o : SmtpOutcome) (h : dictLookup s.recent_predictions pid = none) :
    handle_decision s pid d now o =
      ⟨s, ⟨"error", "Prediction ID not found", none⟩, 0⟩ := by
  unfold handle_decision
  rw [h]

/-- Witness for C6: an id absent from the concrete sample cache. -/
theorem c6_witness :
    handle_decision sampleState "nope" "reject" "t" .success =
      ⟨sampleState, ⟨"error", "Prediction ID not found", none⟩, 0⟩ :=
  c6_unknown_id_no_op sampleState "nope" "reject" "t" .success rfl

/-- C7: a `/decision` request whose `decision` field is neither `accept`
nor `reject` is answered `400` with the invalid-value error, the predictor
state is returned untouched, and no alert is sent (`handle_decision` is
never reached). -/
theorem c7_invalid_decision_400 (s : PredictorState) (pid d now : String)
    (o : SmtpOutcome) (h1 : d ≠ "accept") (h2 : d ≠ "reject") :
    decision_endpoint s (some ⟨some pid, some d⟩) now o =
      ⟨s, 400, .err "Valeur de decision invalide", 0⟩ := by
  unfold decision_endpoint
  have b1 : (d == "accept") = false := by simp [h1]
  have b2 : (d == "reject") = false := by simp [h2]
  simp [b1, b2]

/-- Witness for C7: the concrete decision value `"maybe"`. -/
theorem c7_witness :
    decision_endpoint sampleState (some ⟨some "p1", some "maybe"⟩) "t"
        .success =
      ⟨sampleState, 400, .err "Valeur de decision invalide", 0⟩ :=
  c7_invalid_decision_400 sampleState "p1" "maybe" "t" .success
    (by decide) (by decide)

/-- C8: an `accept` decision on a cached prediction id resets the counter
to 0 whatever its previous value, sends no alert, and leaves the rejection
timestamp history untouched. -/
theorem c8_accept_resets (s : PredictorState) (pid now : String)
    (o : SmtpOutcome) (entry : PredEntry)
    (hl : dictLookup s.recent_predictions pid = some entry) :
    (handle_decision s pid "accept" now o).state.consecutive_failures = 0 ∧
    (handle_decision s pid "accept" now o).alerts = 0 ∧
    (handle_decision s pid "accept" now o).state.rejection_history =
      s.rejection_history := by
  unfold handle_decision
  rw [hl]
  simp

/-- Witness for C8: an `accept` at a concrete state with two prior
consecutive failures. -/
theorem c8_witness :
    (handle_decision sampleState2
      "p1" "accept" "t" .success).state.consecutive_failures = 0 ∧
    (handle_decision sampleState2 "p1" "accept" "t" .success).alerts = 0 ∧
    (handle_decision sampleState2
      "p1" "accept" "t" .success).state.rejection_history =
      sampleState2.rejection_history :=
  c8_accept_resets sampleState2 "p1" "t" .success sampleEntry rfl

/-- Witness for C3 (amended): a full deque of 100 timestamps, then one more
rejection evicts the oldest entry. -/
theorem c3_witness :
    (runRejections (List.replicate 100 (0 : ℚ))).rejection_history.length
      ≤ 100 ∧
    (log_rejection (runRejections (List.replicate 100 (0 : ℚ)))
      5).1.rejection_history =
      (runRejections (List.replicate 100 (0 : ℚ))).rejection_history.tail ++
        [5] :=
  ⟨(c3_azure_deque_bounded (List.replicate 100 0) 5).1,
   (c3_azure_deque_bounded (List.replicate 100 0) 5).2
     (by set_option maxRecDepth 8192 in decide)⟩

/-- Counterexample for C5: a valid decision on a cached id is answered with
HTTP 200, but the response body carries `status = "success"` (plus message
and counter), not `status = "ok"` as claimed. -/
theorem c5_counterexample :
    (decision_endpoint sampleState (some ⟨some "p1", some "accept"⟩) "t"
      SmtpOutcome.success).code = 200 ∧
    (decision_endpoint sampleState (some ⟨some "p1", some "accept"⟩) "t"
      SmtpOutcome.success).body =
      .result ⟨"success", "Decision accept recorded", some 0⟩ ∧
    ("success" : String) ≠ "ok" := by
  refine ⟨rfl, ?_, by decide⟩
  rfl

/-- C5 (amended): a `/decision` request with a cached `prediction_id` and a
decision in `{accept, reject}` is answered `200` with the `handle_decision`
result dict, whose `status` field is `"success"` (not `"ok"`); a request
with no JSON body, a missing `prediction_id`, a missing `decision`, or a
decision outside `{accept, reject}` is answered `400`. -/
theorem c5_decision_endpoint_responses (s : PredictorState)
    (pid dec d p now : String) (o : SmtpOutcome) (entry : PredEntry)
    (hl : dictLookup s.recent_predictions pid = some entry)
    (hdec : dec = "accept" ∨ dec = "reject")
    (hb1 : d ≠ "accept") (hb2 : d ≠ "reject") :
    (decision_endpoint s (some ⟨some pid, some dec⟩) now o).code = 200 ∧
    (decision_endpoint s (some ⟨some pid, some dec⟩) now o).body =
      .result (handle_decision s pid dec now o).result ∧
    (handle_decision s pid dec now o).result.status = "success" ∧
    (decision_endpoint s none now o).code = 400 ∧
    (decision_endpoint s (some ⟨none, some dec⟩) now o).code = 400 ∧
    (decision_endpoint s (some ⟨some p, none⟩) now o).code = 400 ∧
    (decision_endpoint s (some ⟨some p, some d⟩) now o).code = 400 := by
  have hvalid : (!(dec == "accept" || dec == "reject")) = false := by
    rcases hdec with h | h <;> subst h <;> rfl
  have b1 : (d == "accept") = false := by simp [hb1]
  have b2 : (d == "reject") = false := by simp [hb2]
  refine ⟨?_, ?_, handle_decision_status_found s pid dec now o entry hl,
    rfl, rfl, rfl, ?_⟩
  · simp [decision_endpoint, hvalid]
  · simp [decision_endpoint, hvalid]
  · simp [decision_endpoint, b1, b2]

/-- Witness for C5 (amended): the concrete request shapes against
`sampleState`. -/
theorem c5_witness :
    (decision_endpoint sampleState (some ⟨some "p1", some "accept"⟩) "t"
      SmtpOutcome.success).code = 200 ∧
    (decision_endpoint sampleState (some ⟨some "p1", some "accept"⟩) "t"
      SmtpOutcome.success).body =
      .result (handle_decision sampleState "p1" "accept" "t"
        SmtpOutcome.success).result ∧
    (handle_decision sampleState "p1" "accept" "t"
      SmtpOutcome.success).result.status = "success" ∧
    (decision_endpoint sampleState none "t" SmtpOutcome.success).code = 400 ∧
    (decision_endpoint sampleState (some ⟨none, some "accept"⟩) "t"
      SmtpOutcome.success).code = 400 ∧
    (decision_endpoint sampleState (some ⟨some "q", none⟩) "t"
      SmtpOutcome.success).code = 400 ∧
    (decision_endpoint sampleState (some ⟨some "q", some "maybe"⟩) "t"
      SmtpOutcome.success).code = 400 :=
  c5_decision_endpoint_responses sampleState "p1" "accept" "maybe" "q" "t"
    SmtpOutcome.success sampleEntry rfl (Or.inl rfl) (by decide) (by decide)

/-- C9: whenever the external model's `predict_proba` answers a two-class
probability distribution on the given text (their sum is 1), `predict`
returns — for any input text, the empty string included — a result whose
`negative` and `positive` scores sum to 1. -/
theorem c9_probabilities_sum_one (s : PredictorState) (m : Model)
    (text newId : String) (t1 t2 : ℚ)
    (h : (m.predict_proba text).1 + (m.predict_proba text).2 = 1) :
    (predict s m text newId t1 t2).2.negative +
      (predict s m text newId t1 t2).2.positive = 1 := by
  simpa [predict] using h

/-- Witness for C9: the constant model on the empty string. -/
theorem c9_witness :
    (predict sampleState constModel "" "id" 0 0).2.negative +
      (predict sampleState constModel "" "id" 0 0).2.positive = 1 :=
  c9_probabilities_sum_one sampleState constModel "" "id" 0 0
    (by norm_num [constModel])

/-- Looking up the freshly inserted key after a filter that keeps it. -/
theorem dictLookup_insert_filter {α : Type} (l : List (String × α))
    (k : String) (v : α) (p : String × α → Bool) (hp : p (k, v) = true) :
    dictLookup ((dictInsert l k v).filter p) k = some v := by
  induction l with
  | nil => simp [dictInsert, List.filter_cons, hp, dictLookup_cons]
  | cons a l ih =>
    by_cases h : a.1 == k
    · simp [dictInsert, h, List.filter_cons, hp, dictLookup_cons]
    · cases hpa : p a
      · simp [dictInsert, h, List.filter_cons, hpa, ih]
      · simp [dictInsert, h, List.filter_cons, hpa, dictLookup_cons, ih]

/-- Any association found after a filter satisfies the filter predicate. -/
theorem dictLookup_filter_pred {α : Type} (l : List (String × α))
    (p : String × α → Bool) (k : String) (v : α)
    (h : dictLookup (l.filter p) k = some v) : p (k, v) = true := by
  unfold dictLookup at h
  cases hf : List.find? (fun q => q.1 == k) (l.filter p) with
  | none => rw [hf] at h; exact absurd h (by simp)
  | some q =>
    rw [hf] at h
    obtain ⟨q1, q2⟩ := q
    have hq : (q1 == k) = true := by simpa using List.find?_some hf
    have hpq : p (q1, q2) = true :=
      (List.mem_filter.mp (List.mem_of_find?_eq_some hf)).2
    have hk : q1 = k := by simpa using hq
    have hv : q2 = v := by simpa using h
    rw [← hk, ← hv]
    exact hpq

/-- The cache produced by one `predict` call, spelled out. -/
theorem predict_recent (s : PredictorState) (m : Model) (text newId : String)
    (t1 t2 : ℚ) :
    (predict s m text newId t1 t2).1.recent_predictions =
      (dictInsert s.recent_predictions newId
        ⟨truncStore text, m.label text, m.predict_proba text, t1, none⟩).filter
        (fun p => decide (t2 - p.2.timestamp < 3600)) := rfl

/-- C10: provided the two clock readings of one `predict` call are less than
an hour apart, the returned `prediction_id` is a key of the cache afterwards
(bound to the freshly stored entry), and every entry retained in the cache
has a timestamp strictly within the last hour of the cleanup clock — entries
at least one hour old have been evicted. -/
theorem c10_cache_fresh (s : PredictorState) (m : Model)
    (text newId : String) (t1 t2 : ℚ) (h : t2 - t1 < 3600) :
    dictLookup (predict s m text newId t1 t2).1.recent_predictions
      (predict s m text newId t1 t2).2.prediction_id =
      some ⟨truncStore text, m.label text, m.predict_proba text, t1, none⟩ ∧
    (∀ k e, dictLookup (predict s m text newId t1 t2).1.recent_predictions k =
      some e → t2 - e.timestamp < 3600) := by
  constructor
  · rw [show (predict s m text newId t1 t2).2.prediction_id = newId from rfl,
      predict_recent]
    exact dictLookup_insert_filter _ _ _ _ (by simp [h])
  · intro k e he
    rw [predict_recent] at he
    have := dictLookup_filter_pred _ _ _ _ he
    simpa using this

/-- Witness for C10: one `predict` call on `sampleState` with clock readings
0 and 10. -/
theorem c10_witness :
    dictLookup (predict sampleState constModel "x" "new" 0 10).1.recent_predictions
      (predict sampleState constModel "x" "new" 0 10).2.prediction_id =
      some ⟨truncStore "x", constModel.label "x",
        constModel.predict_proba "x", 0, none⟩ ∧
    (10 : ℚ) - 0 < 3600 :=
  ⟨(c10_cache_fresh sampleState constModel "x" "new" 0 10 (by norm_num)).1,
   by norm_num⟩

end SentimentCI
